import Mathlib

/-!
Verification of the template-acquisition core of `bin/cli.js`
(aws-serverless-monorepo-starter): the process-execution wrapper `exec`,
the empty-history probe `isEmptyBranch`, the import procedure `setup`, and
branch discovery `getRepoBranchNames`.

The external world (the `git` executable reached through `spawnSync`, and
the filesystem reached through `fs.mkdir` / `fs.rm`) is modelled as an
oracle `World` fixing the outcome of every invocation.  Each embedded
procedure returns its result together with the trace of external
invocations it performed, so that claims about cleanup steps and retries
can be stated as trace properties.
-/

/-- Result of one `spawnSync` call: exit status (`none` models JavaScript
`null`, i.e. the process did not exit normally), termination signal,
launch error, and captured output streams. -/
structure SpawnResult where
  status : Option Int
  signal : Option String
  error : Option String
  stdout : String
  stderr : String
deriving Repr, DecidableEq

/-- The payload of the `Error` thrown by `exec` (cli.js line 31):
`JSON.stringify({ status, signal, error, log: errOutput.toString(), cmd, args })`. -/
structure ExternalToolError where
  status : Option Int
  signal : Option String
  error : Option String
  log : String
  cmd : String
  args : List String
deriving Repr, DecidableEq

/-- Errors a procedure of cli.js can fail with: an `ExternalToolError`
from `exec`, or a filesystem error from `fs.mkdir` / `fs.rm`. -/
inductive JsError where
  | tool (e : ExternalToolError)
  | fs (msg : String)
deriving Repr, DecidableEq

/-- One externally visible invocation. -/
inductive Event where
  | spawn (cmd : String) (args : List String)
  | fsMkdir (path : String)
  | fsRm (path : String) (recursive : Bool)
deriving Repr, DecidableEq

/-- Oracle fixing the outcome of every external invocation: `run` is the
`spawnSync` outcome for a command and argument list, `mkdirOk p` whether
`fs.mkdir p` succeeds, `rmOk p` whether `fs.rm p` succeeds. -/
structure World where
  run : String → List String → SpawnResult
  mkdirOk : String → Bool
  rmOk : String → Bool

/-- Sequencing that accumulates the invocation trace and short-circuits on
a thrown error, mirroring JavaScript exception propagation. -/
def bindE {E α β : Type} (x : Except E α × List Event)
    (f : α → Except E β × List Event) : Except E β × List Event :=
  match x with
  | (Except.error e, t) => (Except.error e, t)
  | (Except.ok a, t) => ((f a).1, t ++ (f a).2)

/-- JavaScript `try { body } finally { fin }`: `fin` always runs after
`body`; if `fin` throws, its error replaces the body outcome. -/
def tryFinallyE {E α β : Type} (body : Except E α × List Event)
    (fin : Except E β × List Event) : Except E α × List Event :=
  match fin.1 with
  | Except.ok _ => (body.1, body.2 ++ fin.2)
  | Except.error e => (Except.error e, body.2 ++ fin.2)

/-- cli.js line 15. -/
def TEMPLATE_STARTER_TEMP_FOLDER : String := "./.template-starter-temp"

/-- cli.js line 50. -/
def starterRemoteName : String := "template-starter"

/-- A single-quote character, `Char.ofNat 39`. -/
def squote : String := String.mk [Char.ofNat 39]

/-- cli.js lines 26-35: run the tool once via `spawnSync`; on a status
other than `0` (including `null`) throw an `ExternalToolError` carrying
status, signal, launch error, captured stderr, command and arguments;
otherwise return captured stdout. -/
def exec (w : World) (cmd : String) (args : List String) :
    Except ExternalToolError String × List Event :=
  if (w.run cmd args).status = some 0 then
    (Except.ok (w.run cmd args).stdout, [Event.spawn cmd args])
  else
    (Except.error
      ⟨(w.run cmd args).status, (w.run cmd args).signal, (w.run cmd args).error,
       (w.run cmd args).stderr, cmd, args⟩,
     [Event.spawn cmd args])

/-- `exec` lifted to the combined error type, for procedures that also
perform filesystem operations. -/
def execJs (w : World) (cmd : String) (args : List String) :
    Except JsError String × List Event :=
  match exec w cmd args with
  | (Except.ok s, t) => (Except.ok s, t)
  | (Except.error e, t) => (Except.error (JsError.tool e), t)

/-- cli.js line 81: `fs.mkdir(path)`. -/
def fsMkdir (w : World) (path : String) : Except JsError Unit × List Event :=
  if w.mkdirOk path then (Except.ok (), [Event.fsMkdir path])
  else (Except.error (JsError.fs ("mkdir failed: " ++ path)), [Event.fsMkdir path])

/-- cli.js line 37: `fs.rm(TEMPLATE_STARTER_TEMP_FOLDER, { recursive: true })`. -/
def removeTemplateGitDir (w : World) : Except JsError Unit × List Event :=
  if w.rmOk TEMPLATE_STARTER_TEMP_FOLDER then
    (Except.ok (), [Event.fsRm TEMPLATE_STARTER_TEMP_FOLDER true])
  else
    (Except.error (JsError.fs ("rm failed: " ++ TEMPLATE_STARTER_TEMP_FOLDER)),
     [Event.fsRm TEMPLATE_STARTER_TEMP_FOLDER true])

def logArgs : List String := ["--no-pager", "log"]

/-- cli.js lines 39-46: probe the commit log; any thrown error classifies
the branch as empty, success as non-empty. -/
def isEmptyBranch (w : World) : Bool × List Event :=
  match exec w "git" logArgs with
  | (Except.ok _, t) => (false, t)
  | (Except.error _, t) => (true, t)

def initArgs : List String := ["init"]

def remoteAddArgs (branch repo : String) : List String :=
  ["remote", "add", "-t", branch, starterRemoteName, repo]

def fetchArgs : List String := ["fetch", "--all"]

def showCurrentArgs : List String := ["branch", "--show-current"]

def pullArgs (branch currentBranch : String) : List String :=
  ["pull", "--no-commit", "--depth", "1", starterRemoteName,
   branch ++ ":" ++ currentBranch]

/-- cli.js lines 60-68: the merge invocation; the `-m` argument is passed
as one string containing literal double quotes around the message. -/
def mergeArgs (repo branch : String) : List String :=
  ["merge", starterRemoteName ++ "/" ++ branch, "--allow-unrelated-histories",
   "--autostash", "-m \"Starting template " ++ repo ++ " " ++ branch ++ "\"",
   "--no-stat"]

def remoteRemoveArgs : List String := ["remote", "remove", starterRemoteName]

/-- cli.js lines 52-69: the body of the `try` in `setup`. -/
def setupBody (w : World) (repo branch : String) :
    Except ExternalToolError Unit × List Event :=
  bindE (exec w "git" (remoteAddArgs branch repo)) (fun _ =>
  bindE (exec w "git" fetchArgs) (fun _ =>
  bindE ((Except.ok (isEmptyBranch w).1, (isEmptyBranch w).2) :
      Except ExternalToolError Bool × List Event) (fun empty =>
    if empty then
      bindE (exec w "git" showCurrentArgs) (fun currentBranch =>
      bindE (exec w "git" (pullArgs branch currentBranch.trim)) (fun _ =>
        (Except.ok (), [])))
    else
      bindE (exec w "git" (mergeArgs repo branch)) (fun _ =>
        (Except.ok (), [])))))

/-- cli.js lines 48-77: `git init`, then the import steps under a `try`
whose `finally` removes the temporary remote.  A result of `Except.ok ()`
corresponds to `setup` resolving (and so emitting its completion notice);
`Except.error` corresponds to `setup` rejecting. -/
def setup (w : World) (repo branch : String) :
    Except ExternalToolError Unit × List Event :=
  bindE (exec w "git" initArgs) (fun _ =>
    tryFinallyE (setupBody w repo branch)
      (exec w "git" remoteRemoveArgs))

/-- JavaScript `split` on the newline character, accumulator-based. -/
def splitLinesAux : List Char → List Char → List String
  | [], acc => [String.mk acc.reverse]
  | c :: cs, acc =>
    if c = Char.ofNat 10 then String.mk acc.reverse :: splitLinesAux cs []
    else splitLinesAux cs (c :: acc)

/-- cli.js line 84: `.split(newline)`. -/
def splitLines (raw : String) : List String := splitLinesAux raw.data []

/-- cli.js line 85: replace every single-quote character (global regex)
with the empty string. -/
def stripQuotes (s : String) : String :=
  String.mk (s.data.filter (fun c => !(c == Char.ofNat 39)))

def headsMarker : List Char := "refs/heads/".data

/-- cli.js line 87: drop the leading `refs/heads/` when present (the
source regex is anchored at the start), otherwise leave the string
unchanged. -/
def stripHeads (s : String) : String :=
  if headsMarker.isPrefixOf s.data then String.mk (s.data.drop 11) else s

/-- cli.js lines 84-87: split raw listing output into lines, delete quote
characters, drop empty entries, strip the `refs/heads/` prefix. -/
def normalizeRefs (raw : String) : List String :=
  (((splitLines raw).map stripQuotes).filter
    (fun ref => decide (ref.length > 0))).map stripHeads

def cloneArgs (repo : String) : List String :=
  ["clone", "--bare", repo, TEMPLATE_STARTER_TEMP_FOLDER]

/-- cli.js line 83: list local branches of the bare clone; the format
argument carries literal single quotes around `%(refname)`. -/
def listBranchArgs : List String :=
  ["--git-dir=" ++ TEMPLATE_STARTER_TEMP_FOLDER, "branch", "-l",
   "--format=" ++ squote ++ "%(refname)" ++ squote]

/-- cli.js lines 79-95.  `repoUrl` is the repository url read from
`package.json` at line 13 (the tool's own default repository location),
passed here explicitly instead of as a module constant. -/
def getRepoBranchNames (w : World) (repoUrl repo : String) :
    Except JsError (List String) × List Event :=
  tryFinallyE
    (bindE (fsMkdir w TEMPLATE_STARTER_TEMP_FOLDER) (fun _ =>
     bindE (execJs w "git" (cloneArgs repo)) (fun _ =>
     bindE (execJs w "git" listBranchArgs) (fun rawOut =>
       (Except.ok ((normalizeRefs rawOut).filter
          (fun ref => !((repo == repoUrl) && (ref == "main")))), [])))))
    (removeTemplateGitDir w)

/-- cli.js line 122: the custom path of `askSetupArgs` calls
`getRepoBranchNames(repo, true)`.  The function declares a single
parameter, so JavaScript ignores the second argument; the call is
equivalent to `getRepoBranchNames repo`. -/
def getRepoBranchNamesCustom (w : World) (repoUrl repo : String)
    (_flag : Bool) : Except JsError (List String) × List Event :=
  getRepoBranchNames w repoUrl repo

/-- A world in which every invocation fails with status 1 and stderr text. -/
def wFail : World :=
  ⟨fun _ _ => ⟨some 1, none, none, "", "boom"⟩, fun _ => true, fun _ => true⟩

/-- A world in which every invocation succeeds with empty output. -/
def wOk : World :=
  ⟨fun _ _ => ⟨some 0, none, none, "", ""⟩, fun _ => true, fun _ => true⟩

/-- A world whose branch listing reports quoted refs `main` and `dev`. -/
def wMainDev : World :=
  ⟨fun _ args =>
      if args == listBranchArgs then
        ⟨some 0, none, none,
         squote ++ "refs/heads/main" ++ squote ++ "\n" ++
         squote ++ "refs/heads/dev" ++ squote ++ "\n", ""⟩
      else ⟨some 0, none, none, "", ""⟩,
   fun _ => true, fun _ => true⟩

/-- A world whose branch listing reports the single quoted ref `dev`. -/
def wDev : World :=
  ⟨fun _ args =>
      if args == listBranchArgs then
        ⟨some 0, none, none, squote ++ "refs/heads/dev" ++ squote ++ "\n", ""⟩
      else ⟨some 0, none, none, "", ""⟩,
   fun _ => true, fun _ => true⟩

/-- A world whose branch listing reports a ref whose name itself contains
a single-quote character. -/
def wApos : World :=
  ⟨fun _ args =>
      if args == listBranchArgs then
        ⟨some 0, none, none,
         squote ++ "refs/heads/it" ++ squote ++ "s" ++ squote ++ "\n", ""⟩
      else ⟨some 0, none, none, "", ""⟩,
   fun _ => true, fun _ => true⟩

/-- A world in which only the temporary-remote removal fails. -/
def wRmFail : World :=
  ⟨fun _ args =>
      if args == remoteRemoveArgs then ⟨some 1, none, none, "", "boom"⟩
      else ⟨some 0, none, none, "", ""⟩,
   fun _ => true, fun _ => true⟩

/-! Helper lemmas about the embedding combinators. -/

theorem exec_trace (w : World) (cmd : String) (args : List String) :
    (exec w cmd args).2 = [Event.spawn cmd args] := by
  unfold exec
  by_cases h : (w.run cmd args).status = some 0 <;> simp [h]

theorem exec_ok (w : World) (cmd : String) (args : List String)
    (h : (w.run cmd args).status = some 0) :
    exec w cmd args = (Except.ok (w.run cmd args).stdout, [Event.spawn cmd args]) := by
  unfold exec
  simp [h]

theorem exec_err (w : World) (cmd : String) (args : List String)
    (h : (w.run cmd args).status ≠ some 0) :
    exec w cmd args =
      (Except.error
        ⟨(w.run cmd args).status, (w.run cmd args).signal, (w.run cmd args).error,
         (w.run cmd args).stderr, cmd, args⟩,
       [Event.spawn cmd args]) := by
  unfold exec
  simp [h]

theorem tryFinallyE_trace {E α β : Type} (body : Except E α × List Event)
    (fin : Except E β × List Event) :
    (tryFinallyE body fin).2 = body.2 ++ fin.2 := by
  rcases fin with ⟨rf, tf⟩
  cases rf <;> rfl

theorem bindE_trace_nil {E α β : Type} (x : Except E α × List Event)
    (f : α → Except E β × List Event) (hf : ∀ a, (f a).2 = []) :
    (bindE x f).2 = x.2 := by
  rcases x with ⟨r, t⟩
  cases r <;> simp [bindE, hf]

theorem removeTemplateGitDir_trace (w : World) :
    (removeTemplateGitDir w).2 = [Event.fsRm TEMPLATE_STARTER_TEMP_FOLDER true] := by
  unfold removeTemplateGitDir
  by_cases h : w.rmOk TEMPLATE_STARTER_TEMP_FOLDER <;> simp [h]

theorem getRepoBranchNames_ok (w : World) (repoUrl repo : String)
    (branches : List String)
    (h : (getRepoBranchNames w repoUrl repo).1 = Except.ok branches) :
    branches = (normalizeRefs (w.run "git" listBranchArgs).stdout).filter
      (fun ref => !((repo == repoUrl) && (ref == "main"))) := by
  unfold getRepoBranchNames tryFinallyE bindE fsMkdir execJs exec removeTemplateGitDir at h
  by_cases hrm : w.rmOk TEMPLATE_STARTER_TEMP_FOLDER <;> simp [hrm] at h
  by_cases hmk : w.mkdirOk TEMPLATE_STARTER_TEMP_FOLDER <;> simp [hmk] at h
  by_cases hclone : (w.run "git" (cloneArgs repo)).status = some 0 <;> simp [hclone] at h
  by_cases hlist : (w.run "git" listBranchArgs).status = some 0 <;> simp [hlist] at h
  simpa using h.symm

theorem setupBody_trace_merge (w : World) (repo branch : String)
    (hAdd : (w.run "git" (remoteAddArgs branch repo)).status = some 0)
    (hFetch : (w.run "git" fetchArgs).status = some 0)
    (hLog : (w.run "git" logArgs).status = some 0) :
    (setupBody w repo branch).2 =
      [Event.spawn "git" (remoteAddArgs branch repo), Event.spawn "git" fetchArgs,
       Event.spawn "git" logArgs, Event.spawn "git" (mergeArgs repo branch)] := by
  unfold setupBody isEmptyBranch
  rw [exec_ok w "git" (remoteAddArgs branch repo) hAdd, exec_ok w "git" fetchArgs hFetch,
      exec_ok w "git" logArgs hLog]
  rcases hE : exec w "git" (mergeArgs repo branch) with ⟨r, t⟩
  have ht : t = [Event.spawn "git" (mergeArgs repo branch)] := by
    have h2 := exec_trace w "git" (mergeArgs repo branch)
    rw [hE] at h2
    exact h2
  subst ht
  cases r <;> simp [bindE]

theorem setupBody_trace_pull (w : World) (repo branch : String)
    (hAdd : (w.run "git" (remoteAddArgs branch repo)).status = some 0)
    (hFetch : (w.run "git" fetchArgs).status = some 0)
    (hLog : (w.run "git" logArgs).status ≠ some 0)
    (hShow : (w.run "git" showCurrentArgs).status = some 0) :
    (setupBody w repo branch).2 =
      [Event.spawn "git" (remoteAddArgs branch repo), Event.spawn "git" fetchArgs,
       Event.spawn "git" logArgs, Event.spawn "git" showCurrentArgs,
       Event.spawn "git"
         (pullArgs branch ((w.run "git" showCurrentArgs).stdout.trim))] := by
  unfold setupBody isEmptyBranch
  rw [exec_err w "git" logArgs hLog, exec_ok w "git" (remoteAddArgs branch repo) hAdd,
      exec_ok w "git" fetchArgs hFetch, exec_ok w "git" showCurrentArgs hShow]
  rcases hE : exec w "git" (pullArgs branch ((w.run "git" showCurrentArgs).stdout.trim))
    with ⟨r, t⟩
  have ht : t =
      [Event.spawn "git" (pullArgs branch ((w.run "git" showCurrentArgs).stdout.trim))] := by
    have h2 := exec_trace w "git" (pullArgs branch ((w.run "git" showCurrentArgs).stdout.trim))
    rw [hE] at h2
    exact h2
  subst ht
  cases r <;> simp [bindE, hE]

theorem setup_trace_eq (w : World) (repo branch : String)
    (hInit : (w.run "git" initArgs).status = some 0) :
    (setup w repo branch).2 =
      Event.spawn "git" initArgs ::
        ((setupBody w repo branch).2 ++ [Event.spawn "git" remoteRemoveArgs]) := by
  unfold setup
  rw [exec_ok w "git" initArgs hInit]
  simp only [bindE]
  rw [tryFinallyE_trace, exec_trace]
  simp

/-! Claim theorems. -/

/-- C1: Branch Discovery removes the branch name `main` from its result if
and only if the repository equals the tool's own default repository
location: for any other repository the normalized listing is returned
unfiltered (a branch literally named `main` is never filtered out), and
for the default repository `main` never appears in the result even when
present in the underlying ref list. -/
theorem getRepoBranchNames_main_filter (w : World) (repoUrl repo : String)
    (branches : List String)
    (h : (getRepoBranchNames w repoUrl repo).1 = Except.ok branches) :
    (repo ≠ repoUrl →
      branches = normalizeRefs (w.run "git" listBranchArgs).stdout) ∧
    (repo = repoUrl →
      branches = (normalizeRefs (w.run "git" listBranchArgs).stdout).filter
        (fun ref => !(ref == "main")) ∧ "main" ∉ branches) := by
  have hb := getRepoBranchNames_ok w repoUrl repo branches h
  constructor
  · intro hne
    rw [hb]
    apply List.filter_eq_self.mpr
    intro a _
    simp [hne]
  · intro heq
    subst heq
    refine ⟨?_, ?_⟩
    · rw [hb]
      apply List.filter_congr
      intro a _
      simp
    · rw [hb]
      simp [List.mem_filter]

theorem getRepoBranchNames_main_filter_witness :
    (getRepoBranchNames wMainDev "D" "other").1 = Except.ok ["main", "dev"] ∧
    ((("other" : String) ≠ "D" →
        ["main", "dev"] = normalizeRefs ((wMainDev.run "git" listBranchArgs).stdout)) ∧
     (("other" : String) = "D" →
        ["main", "dev"] =
          (normalizeRefs ((wMainDev.run "git" listBranchArgs).stdout)).filter
            (fun ref => !(ref == "main")) ∧
        "main" ∉ (["main", "dev"] : List String))) :=
  ⟨by rfl, getRepoBranchNames_main_filter wMainDev "D" "other" ["main", "dev"] (by rfl)⟩

/-- C2: under successful init, remote-add and fetch, `setup` executes
exactly one of two mutually exclusive strategies chosen by one evaluation
of the empty-history probe: when the probe succeeds (non-empty history) it
runs the merge with `--allow-unrelated-histories` and `--autostash` whose
`-m` message names the source repository and branch, and never a pull;
when the probe fails (empty history) and the current branch can be read,
it runs the pull with `--no-commit` and `--depth 1` from the temporary
remote into the current branch, and never a merge. -/
theorem setup_strategy_dichotomy (w : World) (repo branch : String)
    (hInit : (w.run "git" initArgs).status = some 0)
    (hAdd : (w.run "git" (remoteAddArgs branch repo)).status = some 0)
    (hFetch : (w.run "git" fetchArgs).status = some 0) :
    (((w.run "git" logArgs).status = some 0 →
        Event.spawn "git" (mergeArgs repo branch) ∈ (setup w repo branch).2 ∧
        ∀ target, Event.spawn "git" (pullArgs branch target) ∉ (setup w repo branch).2) ∧
     ((w.run "git" logArgs).status ≠ some 0 →
      (w.run "git" showCurrentArgs).status = some 0 →
        Event.spawn "git"
            (pullArgs branch ((w.run "git" showCurrentArgs).stdout.trim))
          ∈ (setup w repo branch).2 ∧
        Event.spawn "git" (mergeArgs repo branch) ∉ (setup w repo branch).2)) ∧
    "-m \"Starting template " ++ repo ++ " " ++ branch ++ "\"" ∈ mergeArgs repo branch := by
  refine ⟨⟨?_, ?_⟩, by simp [mergeArgs]⟩
  · intro hLog
    rw [setup_trace_eq w repo branch hInit, setupBody_trace_merge w repo branch hAdd hFetch hLog]
    constructor
    · simp
    · intro target
      simp [initArgs, remoteAddArgs, fetchArgs, logArgs, mergeArgs, remoteRemoveArgs, pullArgs]
  · intro hLog hShow
    rw [setup_trace_eq w repo branch hInit,
        setupBody_trace_pull w repo branch hAdd hFetch hLog hShow]
    constructor
    · simp
    · simp [initArgs, remoteAddArgs, fetchArgs, logArgs, mergeArgs, remoteRemoveArgs,
            pullArgs, showCurrentArgs]

theorem setup_strategy_dichotomy_witness :
    (wOk.run "git" initArgs).status = some 0 ∧
    ((((wOk.run "git" logArgs).status = some 0 →
        Event.spawn "git" (mergeArgs "r" "b") ∈ (setup wOk "r" "b").2 ∧
        ∀ target, Event.spawn "git" (pullArgs "b" target) ∉ (setup wOk "r" "b").2) ∧
      ((wOk.run "git" logArgs).status ≠ some 0 →
       (wOk.run "git" showCurrentArgs).status = some 0 →
        Event.spawn "git" (pullArgs "b" ((wOk.run "git" showCurrentArgs).stdout.trim))
          ∈ (setup wOk "r" "b").2 ∧
        Event.spawn "git" (mergeArgs "r" "b") ∉ (setup wOk "r" "b").2)) ∧
     "-m \"Starting template r b\"" ∈ mergeArgs "r" "b") :=
  ⟨rfl, setup_strategy_dichotomy wOk "r" "b" rfl rfl rfl⟩

/-- C3: once `git init` has succeeded and the temporary remote has been
registered, the removal command `git remote remove template-starter` is
executed on every exit path of `setup` — whatever the outcomes of fetch,
the probe, pull or merge — because it sits in the `finally` clause. -/
theorem setup_remote_remove_on_exit (w : World) (repo branch : String)
    (hInit : (w.run "git" initArgs).status = some 0)
    (_hAdd : (w.run "git" (remoteAddArgs branch repo)).status = some 0) :
    Event.spawn "git" remoteRemoveArgs ∈ (setup w repo branch).2 := by
  unfold setup
  rw [exec_ok w "git" initArgs hInit]
  simp only [bindE]
  rw [tryFinallyE_trace, exec_trace]
  simp

theorem setup_remote_remove_on_exit_witness :
    (wOk.run "git" initArgs).status = some 0 ∧
    (wOk.run "git" (remoteAddArgs "b" "r")).status = some 0 ∧
    Event.spawn "git" remoteRemoveArgs ∈ (setup wOk "r" "b").2 :=
  ⟨rfl, rfl, setup_remote_remove_on_exit wOk "r" "b" rfl rfl⟩

/-- C4: for every repository location and every outcome of Branch
Discovery — success or failure of directory creation, the bare clone or
the branch listing — the recursive removal of the fixed-path temporary
directory is executed on the exit path. -/
theorem getRepoBranchNames_rm_always (w : World) (repoUrl repo : String) :
    Event.fsRm TEMPLATE_STARTER_TEMP_FOLDER true ∈ (getRepoBranchNames w repoUrl repo).2 := by
  unfold getRepoBranchNames
  rw [tryFinallyE_trace, removeTemplateGitDir_trace]
  simp

/-- C5: the empty-history predicate classifies the branch as empty exactly
when the commit-log probe `git --no-pager log` fails (whatever the cause),
and as non-empty exactly when the probe succeeds; it invokes exactly the
probe command. -/
theorem isEmptyBranch_iff_probe_fails (w : World) :
    ((isEmptyBranch w).1 = true ↔ (w.run "git" logArgs).status ≠ some 0) ∧
    (isEmptyBranch w).2 = [Event.spawn "git" logArgs] := by
  unfold isEmptyBranch exec
  by_cases h : (w.run "git" logArgs).status = some 0 <;> simp [h]

/-- C6: an external-tool invocation whose tool exits with a status other
than zero makes `exec` raise an ExternalToolError carrying the exit
status, signal, launch error, triggering command and arguments, and the
captured error-stream text; the invocation is attempted exactly once
(its trace is the single spawn event), never retried. -/
theorem exec_error_spec (w : World) (cmd : String) (args : List String) :
    ((w.run cmd args).status ≠ some 0 →
      (exec w cmd args).1 = Except.error
        ⟨(w.run cmd args).status, (w.run cmd args).signal, (w.run cmd args).error,
         (w.run cmd args).stderr, cmd, args⟩) ∧
    (exec w cmd args).2 = [Event.spawn cmd args] := by
  unfold exec
  by_cases h : (w.run cmd args).status = some 0 <;> simp [h]

theorem exec_error_spec_witness :
    (wFail.run "git" ["status"]).status ≠ some 0 ∧
    (exec wFail "git" ["status"]).1 = Except.error
      ⟨some 1, none, none, "boom", "git", ["status"]⟩ ∧
    (exec wFail "git" ["status"]).2 = [Event.spawn "git" ["status"]] :=
  ⟨by decide, (exec_error_spec wFail "git" ["status"]).1 (by decide),
   (exec_error_spec wFail "git" ["status"]).2⟩

/-- C7: normalization in Branch Discovery strips quoting artifacts, drops
empty entries and strips the `refs/heads/` prefix: when the raw listing
output is the single-quoted line for `refs/heads/dev` followed by a
trailing newline, discovery returns exactly the bare branch name `dev`. -/
theorem discovery_normalizes_quoted_ref (w : World) (repoUrl repo : String)
    (hMk : w.mkdirOk TEMPLATE_STARTER_TEMP_FOLDER = true)
    (hRm : w.rmOk TEMPLATE_STARTER_TEMP_FOLDER = true)
    (hClone : (w.run "git" (cloneArgs repo)).status = some 0)
    (hList : (w.run "git" listBranchArgs).status = some 0)
    (hOut : (w.run "git" listBranchArgs).stdout =
      squote ++ "refs/heads/dev" ++ squote ++ "\n") :
    (getRepoBranchNames w repoUrl repo).1 = Except.ok ["dev"] := by
  have hn : normalizeRefs (squote ++ "refs/heads/dev" ++ squote ++ "\n") = ["dev"] := by
    decide
  unfold getRepoBranchNames tryFinallyE bindE fsMkdir execJs exec removeTemplateGitDir
  simp [hMk, hRm, hClone, hList, hOut, hn]

theorem discovery_normalizes_quoted_ref_witness :
    wDev.mkdirOk TEMPLATE_STARTER_TEMP_FOLDER = true ∧
    wDev.rmOk TEMPLATE_STARTER_TEMP_FOLDER = true ∧
    (wDev.run "git" (cloneArgs "r")).status = some 0 ∧
    (wDev.run "git" listBranchArgs).status = some 0 ∧
    (wDev.run "git" listBranchArgs).stdout =
      squote ++ "refs/heads/dev" ++ squote ++ "\n" ∧
    (getRepoBranchNames wDev "D" "r").1 = Except.ok ["dev"] :=
  ⟨rfl, rfl, by decide, by decide, by decide,
   discovery_normalizes_quoted_ref wDev "D" "r" rfl rfl (by decide) (by decide) (by decide)⟩

/-- C8 counterexample: in a world where every import step of `setup`
succeeds and only the temporary-remote removal fails, `setup` itself ends
in an error — the successful import is not reported as successful (the
completion notice is not reached), contradicting the claim that the
removal failure does not cause the import to be reported as failed. -/
theorem setup_cleanup_counterexample :
    (wRmFail.run "git" initArgs).status = some 0 ∧
    (wRmFail.run "git" (remoteAddArgs "b" "r")).status = some 0 ∧
    (wRmFail.run "git" fetchArgs).status = some 0 ∧
    (wRmFail.run "git" logArgs).status = some 0 ∧
    (wRmFail.run "git" (mergeArgs "r" "b")).status = some 0 ∧
    (setup wRmFail "r" "b").1 =
      Except.error ⟨some 1, none, none, "boom", "git", remoteRemoveArgs⟩ :=
  ⟨by decide, by decide, by decide, by decide, by decide, by rfl⟩

/-- C8 (amended): when every import step succeeds but the temporary-remote
removal fails, the removal failure is surfaced — `setup` fails with the
removal's ExternalToolError, whose command and arguments identify the
cleanup step (`git remote remove template-starter`), so a caller can
distinguish the cleanup failure from an import-step failure by inspecting
the error — but `setup` does end in that error, so the import is not
reported as successful. -/
theorem setup_cleanup_error_surfaced (w : World) (repo branch : String)
    (hInit : (w.run "git" initArgs).status = some 0)
    (_hAdd : (w.run "git" (remoteAddArgs branch repo)).status = some 0)
    (_hFetch : (w.run "git" fetchArgs).status = some 0)
    (_hLog : (w.run "git" logArgs).status = some 0)
    (_hMerge : (w.run "git" (mergeArgs repo branch)).status = some 0)
    (hRm : (w.run "git" remoteRemoveArgs).status ≠ some 0) :
    (setup w repo branch).1 =
      Except.error
        ⟨(w.run "git" remoteRemoveArgs).status, (w.run "git" remoteRemoveArgs).signal,
         (w.run "git" remoteRemoveArgs).error, (w.run "git" remoteRemoveArgs).stderr,
         "git", remoteRemoveArgs⟩ := by
  unfold setup
  rw [exec_ok w "git" initArgs hInit]
  simp only [bindE]
  unfold tryFinallyE
  rw [exec_err w "git" remoteRemoveArgs hRm]

theorem setup_cleanup_error_surfaced_witness :
    (wRmFail.run "git" remoteRemoveArgs).status ≠ some 0 ∧
    (setup wRmFail "r" "b").1 =
      Except.error
        ⟨(wRmFail.run "git" remoteRemoveArgs).status, (wRmFail.run "git" remoteRemoveArgs).signal,
         (wRmFail.run "git" remoteRemoveArgs).error, (wRmFail.run "git" remoteRemoveArgs).stderr,
         "git", remoteRemoveArgs⟩ :=
  ⟨by decide,
   setup_cleanup_error_surfaced wRmFail "r" "b" (by decide) (by decide) (by decide)
     (by decide) (by decide) (by decide)⟩

/-- C9 counterexample: when the user supplies the tool's own default
location as the custom repository, the custom-path discovery call (whose
extra flag argument is ignored) still filters the reserved name: with
`main` and `dev` present in the underlying ref list, the offered choices
are just `dev` — `main` does not appear, contradicting the claim. -/
theorem custom_path_filter_counterexample :
    normalizeRefs ((wMainDev.run "git" listBranchArgs).stdout) = ["main", "dev"] ∧
    (getRepoBranchNamesCustom wMainDev "D" "D" true).1 = Except.ok ["dev"] :=
  ⟨by rfl, by rfl⟩

/-- C9 (amended): the extra argument passed at the custom-path call site
is ignored because `getRepoBranchNames` declares a single parameter, so
the custom-repository branch list is filtered against the reserved-name
rule after all: whenever the supplied location equals the tool's own
default location, a branch named `main` never appears in the offered
choices. -/
theorem custom_repo_filter_applies (w : World) (repoUrl : String) (flag : Bool)
    (branches : List String)
    (h : (getRepoBranchNamesCustom w repoUrl repoUrl flag).1 = Except.ok branches) :
    "main" ∉ branches := by
  unfold getRepoBranchNamesCustom at h
  have hb := getRepoBranchNames_ok w repoUrl repoUrl branches h
  rw [hb]
  simp [List.mem_filter]

theorem custom_repo_filter_applies_witness :
    (getRepoBranchNamesCustom wMainDev "D" "D" true).1 = Except.ok ["dev"] ∧
    "main" ∉ (["dev"] : List String) :=
  ⟨by rfl, custom_repo_filter_applies wMainDev "D" true ["dev"] (by rfl)⟩

/-- C10: normalization deletes every single-quote character occurring
anywhere in a ref name, not only the surrounding quoting artifacts: a
branch whose quoted ref line encodes a name containing an apostrophe
(`it` + quote + `s`) is discovered as `its`, and in general no name
produced by normalization contains a single-quote character. -/
theorem discovery_strips_all_quotes (w : World) (repoUrl repo : String)
    (hMk : w.mkdirOk TEMPLATE_STARTER_TEMP_FOLDER = true)
    (hRm : w.rmOk TEMPLATE_STARTER_TEMP_FOLDER = true)
    (hClone : (w.run "git" (cloneArgs repo)).status = some 0)
    (hList : (w.run "git" listBranchArgs).status = some 0)
    (hOut : (w.run "git" listBranchArgs).stdout =
      squote ++ "refs/heads/it" ++ squote ++ "s" ++ squote ++ "\n") :
    (getRepoBranchNames w repoUrl repo).1 = Except.ok ["its"] ∧
    ∀ raw name, name ∈ normalizeRefs raw → Char.ofNat 39 ∉ name.data := by
  constructor
  · have hn : normalizeRefs (squote ++ "refs/heads/it" ++ squote ++ "s" ++ squote ++ "\n") =
        ["its"] := by decide
    unfold getRepoBranchNames tryFinallyE bindE fsMkdir execJs exec removeTemplateGitDir
    simp [hMk, hRm, hClone, hList, hOut, hn]
  · intro raw name hmem
    unfold normalizeRefs at hmem
    simp only [List.mem_map, List.mem_filter] at hmem
    obtain ⟨q, ⟨⟨p, _, rfl⟩, _⟩, rfl⟩ := hmem
    intro hc
    have hc2 : Char.ofNat 39 ∈ (stripQuotes p).data := by
      unfold stripHeads at hc
      by_cases hpre : headsMarker.isPrefixOf (stripQuotes p).data
      · rw [if_pos hpre] at hc
        exact List.drop_subset _ _ hc
      · rw [if_neg hpre] at hc
        exact hc
    unfold stripQuotes at hc2
    have hc3 := List.mem_filter.mp hc2
    simp at hc3

theorem discovery_strips_all_quotes_witness :
    wApos.mkdirOk TEMPLATE_STARTER_TEMP_FOLDER = true ∧
    (wApos.run "git" listBranchArgs).stdout =
      squote ++ "refs/heads/it" ++ squote ++ "s" ++ squote ++ "\n" ∧
    ((getRepoBranchNames wApos "D" "r").1 = Except.ok ["its"] ∧
     ∀ raw name, name ∈ normalizeRefs raw → Char.ofNat 39 ∉ name.data) :=
  ⟨rfl, by decide,
   discovery_strips_all_quotes wApos "D" "r" rfl rfl (by decide) (by decide) (by decide)⟩
